import Mathlib

/-!
# Verification of the tmate startup driver (src/tmux.c)

Shallow embedding of the session-bootstrap and socket-locator logic of
`src/tmux.c` (the tmate build, i.e. with the `TMATE` conditional code active).
External OS facilities (`access`, `mkdir`, `lstat`, `realpath`, `mktemp`,
`getpwuid`, environment variables) are modelled as explicit oracle parameters;
everything that is computation inside `tmux.c` is translated directly.
-/

namespace TmateBoot

/-- The list of characters after the last `/` of `l`; the whole list when there
is no `/`.  This is the `strrchr(s, '/') + 1` idiom of `areshell` and of the
`VISUAL`/`EDITOR` override in `main`. -/
def afterLastSlashL (l : List Char) : List Char :=
  (l.reverse.takeWhile (fun c => c ≠ '/')).reverse

/-- Basename of a string as computed by `strrchr(s, '/')`: the part after the
last slash, or the whole string when it has no slash. -/
def afterLastSlash (s : String) : String :=
  String.mk (afterLastSlashL s.toList)

/-- Strip one leading `-` from the program name, as `areshell` does with
`if (*progname == '-') progname++;`. -/
def stripDash (s : String) : String :=
  match s.toList with
  | '-' :: rest => String.mk rest
  | _ => s

/-- Embedding of `areshell` (src/tmux.c:107-122): the last path component of
`shell` is compared against the invocation name `progname` with one leading
`-` stripped. -/
def areshell (progname shell : String) : Bool :=
  afterLastSlash shell = stripDash progname

/-- Embedding of `checkshell` (src/tmux.c:95-105).  `shell = none` models a
NULL pointer; `xok shell` models `access(shell, X_OK) == 0`. -/
def checkshell (progname : String) (xok : String → Bool) (shell : Option String) : Bool :=
  match shell with
  | none => false
  | some sh =>
    if sh.toList.head? ≠ some '/' then false
    else if areshell progname sh then false
    else if ¬ xok sh then false
    else true

/-- The entry of the user-account database relevant to `getshell`
(`getpwuid(getuid())`). -/
structure Passwd where
  pw_shell : String
  deriving Repr, DecidableEq

/-- The compiled-in fallback shell `_PATH_BSHELL`.  Modelled from the spec:
`paths.h` is not part of the given source; the claims depend only on it being
a fixed compiled-in path. -/
def PATH_BSHELL : String := "/bin/sh"

/-- Embedding of `getshell` (src/tmux.c:78-93).  `envShell` is `getenv("SHELL")`
(`none` = unset), `pw` the result of `getpwuid(getuid())`. -/
def getshell (progname : String) (xok : String → Bool)
    (envShell : Option String) (pw : Option Passwd) : String :=
  if checkshell progname xok envShell then envShell.getD ""
  else
    match pw with
    | some p => if checkshell progname xok (some p.pw_shell) then p.pw_shell else PATH_BSHELL
    | none => PATH_BSHELL

/-- Result of a `mkdir(base, S_IRWXU)` call: success, failure with `EEXIST`,
or failure with any other errno (which makes `make_label` fail). -/
inductive MkdirResult
  | ok
  | eexist
  | err
  deriving Repr, DecidableEq

/-- The fields of `struct stat` that `make_label` reads after `lstat`:
the owner uid, whether the entry is a directory (`S_ISDIR`), and the
permission bits (`st_mode & 07777`, so `mode % 8` is the `S_IRWXO` others
part and `mode / 8 % 8` the `S_IRWXG` group part). -/
structure Stat where
  st_uid : Nat
  isDir : Bool
  mode : Nat
  deriving Repr, DecidableEq

/-- Oracle for the filesystem and libc calls issued by `make_label`:
`mkdir`, `lstat`, `realpath` (`none` = failure) and `mktemp` (the
template-randomizing call from the `TMATE` branch; libc `mktemp(3)` replaces
the trailing `XXXXXX` of its argument, or yields `""` on failure). -/
structure FS where
  mkdir : String → MkdirResult
  lstat : String → Option Stat
  realpath : String → Option String
  mktemp : String → String

/-- The system temp directory `_PATH_TMP`.  Modelled from the spec: `paths.h`
is not part of the given source; `_PATH_TMP` is the system temp directory
constant (with its customary trailing slash). -/
def PATH_TMP : String := "/tmp/"

/-- The per-user runtime directory `{TMUX_TMPDIR or _PATH_TMP}/tmate-{uid}`
built by `make_label` (src/tmux.c:140-143); `TMUX_TMPDIR` is used only when
set and non-empty. -/
def tmateBaseDir (tmuxTmpdir : Option String) (uid : Nat) : String :=
  match tmuxTmpdir with
  | some s => if s ≠ "" then s ++ "/tmate-" ++ toString uid
              else PATH_TMP ++ "/tmate-" ++ toString uid
  | none => PATH_TMP ++ "/tmate-" ++ toString uid

/-- Embedding of `make_label` (src/tmux.c:124-178) in the tmate build
(`TMATE` defined): a `none` label records `do_random_label`, the label
defaults to `"default"`, the runtime directory is created or validated
(must be a directory, owned by `uid`, with no `S_IRWXO` bits), the base is
canonicalized with fallback to the uncanonicalized path, and — in the
random-label case — the label becomes the template `"XXXXXX"` and the final
path goes through `mktemp`.  Returns `none` where the C returns NULL. -/
def make_label (fs : FS) (uid : Nat) (tmuxTmpdir : Option String)
    (label : Option String) : Option String :=
  let do_random_label := label.isNone
  let lbl₀ := label.getD "default"
  let base := tmateBaseDir tmuxTmpdir uid
  match fs.mkdir base with
  | .err => none
  | _ =>
    match fs.lstat base with
    | none => none
    | some sb =>
      if ¬ sb.isDir then none
      else if sb.st_uid ≠ uid ∨ sb.mode % 8 ≠ 0 then none
      else
        let lbl := if do_random_label then "XXXXXX" else lbl₀
        let resolved := (fs.realpath base).getD base
        let path := resolved ++ "/" ++ lbl
        some (if do_random_label then fs.mktemp path else path)

/-- The `$TMUX` branch of socket resolution (src/tmux.c:401-407): when neither
`-S` nor `-L` was given and `TMUX` is set, non-empty and does not start with a
comma, the socket path is `TMUX` truncated at its first comma
(`path[strcspn(path, ",")] = '\0'`). -/
def tmuxEnvPath (tmux : Option String) : Option String :=
  match tmux with
  | none => none
  | some s =>
    if s ≠ "" ∧ s.toList.head? ≠ some ',' then
      some (String.mk (s.toList.takeWhile (fun c => c ≠ ',')))
    else none

/-- Embedding of socket-path resolution in `main` (src/tmux.c:401-411):
`-S` path verbatim; else the `$TMUX` branch when no `-L` label was given;
else `make_label`.  Returns `none` exactly when `main` prints
`can't create socket` and exits 1. -/
def resolveSocketPath (fs : FS) (uid : Nat) (tmuxTmpdir tmux : Option String)
    (pathOpt labelOpt : Option String) : Option String :=
  let path₁ : Option String :=
    match pathOpt, labelOpt with
    | none, none => tmuxEnvPath tmux
    | _, _ => pathOpt
  match path₁ with
  | some p => some p
  | none => make_label fs uid tmuxTmpdir labelOpt

/-- Bit index of `CLIENT_LOGIN`.  Modelled from the spec: `tmux.h` is not part
of the given source; the client flags form a bit-set and only the distinctness
of the bits matters to the claims, so the bit positions are chosen here. -/
def loginBit : Nat := 0

/-- Bit index of `CLIENT_256COLOURS` (see `loginBit` for the modelling note). -/
def coloursBit : Nat := 1

/-- Bit index of `CLIENT_UTF8` (see `loginBit` for the modelling note). -/
def utf8Bit : Nat := 2

/-- Bit index of `CLIENT_CONTROL` (see `loginBit` for the modelling note). -/
def controlBit : Nat := 3

/-- Bit index of `CLIENT_CONTROLCONTROL` (see `loginBit` for the note). -/
def ccBit : Nat := 4

/-- `CLIENT_LOGIN` as a flag value. -/
def CLIENT_LOGIN : Nat := 2 ^ loginBit

/-- `CLIENT_256COLOURS` as a flag value. -/
def CLIENT_256COLOURS : Nat := 2 ^ coloursBit

/-- `CLIENT_UTF8` as a flag value. -/
def CLIENT_UTF8 : Nat := 2 ^ utf8Bit

/-- `CLIENT_CONTROL` as a flag value. -/
def CLIENT_CONTROL : Nat := 2 ^ controlBit

/-- `CLIENT_CONTROLCONTROL` as a flag value. -/
def CLIENT_CONTROLCONTROL : Nat := 2 ^ ccBit

/-- The `s == NULL || *s == '\0'` fallback chain element: use `a` when it is
set and non-empty, else `b`. -/
def nonEmptyOr (a : Option String) (b : String) : String :=
  match a with
  | some v => if v = "" then b else v
  | none => b

/-- The locale value inspected by `main` (src/tmux.c:354-360): the first
set-and-non-empty of `LC_ALL`, `LC_CTYPE`, `LANG`, else `""`. -/
def localeValue (lcAll lcCtype lang : Option String) : String :=
  nonEmptyOr lcAll (nonEmptyOr lcCtype (nonEmptyOr lang ""))

/-- `pat` occurs at the start of `l` (character-list prefix test). -/
def hasPrefixL : List Char → List Char → Bool
  | [], _ => true
  | _ :: _, [] => false
  | p :: ps, c :: cs => p = c && hasPrefixL ps cs

/-- `pat` occurs contiguously somewhere in `l`: the `strstr` substring test. -/
def hasSubL (pat : List Char) : List Char → Bool
  | [] => hasPrefixL pat []
  | c :: cs => hasPrefixL pat (c :: cs) || hasSubL pat cs

/-- Lower-cased character list of a string, for the ASCII case-insensitive
substring search of `strcasestr`. -/
def lowerL (s : String) : List Char :=
  s.toList.map Char.toLower

/-- `strcasestr(s, "UTF-8") != NULL || strcasestr(s, "UTF8") != NULL`
(src/tmux.c:361-362): case-insensitive substring test. -/
def hasUtf8 (s : String) : Bool :=
  hasSubL (lowerL "UTF-8") (lowerL s) || hasSubL (lowerL "UTF8") (lowerL s)

/-- Embedding of the UTF-8 capability step of `main` (src/tmux.c:351-364):
if `TMUX` is set (even empty) or-in `CLIENT_UTF8`; else or it in exactly when
the first non-empty of `LC_ALL`, `LC_CTYPE`, `LANG` contains `UTF-8`/`UTF8`
case-insensitively. -/
def utf8Step (tmux lcAll lcCtype lang : Option String) (flags : Nat) : Nat :=
  if tmux.isSome then flags ||| CLIENT_UTF8
  else if hasUtf8 (localeValue lcAll lcCtype lang) then flags ||| CLIENT_UTF8
  else flags

/-- The two keymap identifiers `MODEKEY_VI` / `MODEKEY_EMACS` used by the
`VISUAL`/`EDITOR` override.  Modelled from the spec: the `MODEKEY_*` constants
live in `tmux.h`, outside the given source; only their distinctness matters. -/
inductive Keys
  | vi
  | emacs
  deriving Repr, DecidableEq

/-- Embedding of the `VISUAL`/`EDITOR` inspection of `main`
(src/tmux.c:385-391): `VISUAL` if set (even empty), else `EDITOR` if set,
else no override; the inspected value's basename is searched for the
(case-sensitive) substring `"vi"`. -/
def keysOverride (visual editor : Option String) : Option Keys :=
  match (match visual with | some s => some s | none => editor) with
  | none => none
  | some s =>
    if hasSubL "vi".toList (afterLastSlash s).toList then some .vi
    else some .emacs

/-- The effect of src/tmux.c:384-394 on the `status-keys` (session scope) and
`mode-keys` (window scope) options, given their schema defaults `sk`, `mk`:
when the override fires both are set to the same keymap, else both keep their
defaults. -/
def applyKeysOverride (visual editor : Option String) (sk mk : Keys) : Keys × Keys :=
  match keysOverride visual editor with
  | none => (sk, mk)
  | some k => (k, k)

/-- The four deferred CLI option slots captured during flag parsing
(src/tmux.c:216-219): `api_key` (-k), `session_name` (-n),
`session_name_ro` (-r), `authorized_keys` (-a). -/
structure CliOptState where
  api_key : Option String
  session_name : Option String
  session_name_ro : Option String
  authorized_keys : Option String
  deriving Repr, DecidableEq

/-- One expansion of the `SET_OPT(name, val)` macro (src/tmux.c:223-229): when
the slot holds a value, one `run_headless_command` of
`{"set-option", name, val}` is issued and the slot is freed and cleared. -/
def setOptCmd (name : String) (v : Option String) : List (List String) :=
  match v with
  | some s => [["set-option", name, s]]
  | none => []

/-- Embedding of `tmate_load_cli_options` (src/tmux.c:221-235): the four
`SET_OPT` expansions in their textual order, returning the list of issued
`set-option` commands together with the state after all slots are cleared. -/
def tmate_load_cli_options (st : CliOptState) : List (List String) × CliOptState :=
  (setOptCmd "tmate-api-key" st.api_key
     ++ setOptCmd "tmate-session-name" st.session_name
     ++ setOptCmd "tmate-session-name-ro" st.session_name_ro
     ++ setOptCmd "tmate-authorized-keys" st.authorized_keys,
   ⟨none, none, none, none⟩)

/-- One parsed command-line option, mirroring the cases of the `getopt` loop
(src/tmux.c:268-331).  `obad` stands for any option that reaches the
`default:` arm (`-h`, the caseless `-d`/`-U`, and unrecognized options). -/
inductive CliOpt
  | o2
  | oc (s : String)
  | oC
  | oV
  | oconf (s : String)
  | ol
  | oL (s : String)
  | oq
  | oS (s : String)
  | ou
  | ov
  | oF
  | okey (s : String)
  | oname (s : String)
  | onameRo (s : String)
  | oauth (s : String)
  | obad
  deriving Repr, DecidableEq

/-- Why the `getopt` loop terminated the process: `usage()` (exit 1) or the
`-V` version print (exit 0). -/
inductive ExitKind
  | usageExit
  | versionExit
  deriving Repr, DecidableEq

/-- The mutable state of `main` accumulated across the `getopt` loop. -/
structure ParseState where
  flags : Nat
  path : Option String
  label : Option String
  shellcmd : Option String
  cfgFile : Option String
  verbosity : Nat
  foreground : Bool
  tmuxUnset : Bool
  cli : CliOptState
  deriving Repr, DecidableEq

/-- Effect of one `getopt` case (src/tmux.c:269-330) on the parse state;
`Except.error` models the cases that exit the process in the loop. -/
def applyOpt (st : ParseState) : CliOpt → Except ExitKind ParseState
  | .o2 => .ok { st with flags := st.flags ||| CLIENT_256COLOURS }
  | .oc s => .ok { st with shellcmd := some s }
  | .oC =>
    if st.flags.testBit controlBit then
      .ok { st with flags := st.flags ||| CLIENT_CONTROLCONTROL }
    else
      .ok { st with flags := st.flags ||| CLIENT_CONTROL }
  | .oV => .error .versionExit
  | .oconf s => .ok { st with cfgFile := some s }
  | .ol => .ok { st with flags := st.flags ||| CLIENT_LOGIN }
  | .oL s => .ok { st with label := some s }
  | .oq => .ok st
  | .oS s => .ok { st with path := some s }
  | .ou => .ok { st with flags := st.flags ||| CLIENT_UTF8 }
  | .ov => .ok { st with verbosity := st.verbosity + 1 }
  | .oF => .ok { st with foreground := true, verbosity := st.verbosity + 1,
                         tmuxUnset := true }
  | .okey s => .ok { st with cli := { st.cli with api_key := some s } }
  | .oname s => .ok { st with cli := { st.cli with session_name := some s } }
  | .onameRo s => .ok { st with cli := { st.cli with session_name_ro := some s } }
  | .oauth s => .ok { st with cli := { st.cli with authorized_keys := some s } }
  | .obad => .error .usageExit

/-- The whole `getopt` loop, folded left over the parsed options. -/
def parseOpts : List CliOpt → ParseState → Except ExitKind ParseState
  | [], st => .ok st
  | o :: rest, st =>
    match applyOpt st o with
    | .error e => .error e
    | .ok st₂ => parseOpts rest st₂

/-- Initial parse state of `main` (src/tmux.c:257-267): `CLIENT_LOGIN` when
`argv[0]` starts with `-`, plus — the tmate build — `CLIENT_256COLOURS` and
`CLIENT_UTF8` unconditionally; all option slots empty. -/
def initState (argv0 : String) : ParseState :=
  { flags := (if argv0.toList.head? = some '-' then CLIENT_LOGIN else 0)
               ||| (CLIENT_256COLOURS ||| CLIENT_UTF8),
    path := none, label := none, shellcmd := none, cfgFile := none,
    verbosity := 0, foreground := false, tmuxUnset := false,
    cli := ⟨none, none, none, none⟩ }

/-- The environment variables `main` consults after the `getopt` loop. -/
structure Envr where
  tmux : Option String
  tmuxTmpdir : Option String
  lcAll : Option String
  lcCtype : Option String
  lang : Option String
  visual : Option String
  editor : Option String
  uid : Nat

/-- Outcome of the startup driver: `usage` (usage text to stderr, exit 1),
`versionExit` (exit 0), `socketFail` (`can't create socket: …` to stderr,
exit 1), or hand-off to `client_main` with the resolved socket path, flag
set, positional-argument count and shell command. -/
inductive BootResult
  | usage
  | versionExit
  | socketFail
  | client (socketPath : String) (flags : Nat) (argc : Nat) (shellcmd : Option String)
  deriving Repr, DecidableEq

/-- The process exit status each `BootResult` entails; `none` for the
hand-off case, whose status is whatever `client_main` returns. -/
def exitCode : BootResult → Option Nat
  | .usage => some 1
  | .versionExit => some 0
  | .socketFail => some 1
  | .client _ _ _ _ => none

/-- Embedding of `main` after locale setup (src/tmux.c:257-416): initial
flags, the `getopt` loop, the `-c`-vs-positional usage check, the UTF-8
capability step, and socket-path resolution; `-F` during parsing unsets
`TMUX` before it is consulted.  `argc` is the positional-argument count left
after the loop. -/
def mainModel (fs : FS) (env : Envr) (argv0 : String) (opts : List CliOpt)
    (argc : Nat) : BootResult :=
  match parseOpts opts (initState argv0) with
  | .error .usageExit => .usage
  | .error .versionExit => .versionExit
  | .ok st =>
    if st.shellcmd.isSome ∧ argc ≠ 0 then .usage
    else
      match resolveSocketPath fs env.uid env.tmuxTmpdir
          (if st.tmuxUnset then none else env.tmux) st.path st.label with
      | none => .socketFail
      | some p =>
        .client p
          (utf8Step (if st.tmuxUnset then none else env.tmux)
            env.lcAll env.lcCtype env.lang st.flags)
          argc st.shellcmd

/-- The `-L` occurrences corresponding to an optional label, for restating
`main` runs whose only relevant option is the label. -/
def labelOpts : Option String → List CliOpt
  | none => []
  | some l => [CliOpt.oL l]

/-- A filesystem oracle describing a healthy pre-existing runtime directory
owned by uid 1000 with mode `0700`, `realpath` failing and `mktemp` echoing
its template; used to instantiate universally quantified theorems. -/
def fsOkDir : FS :=
  { mkdir := fun _ => .eexist, lstat := fun _ => some ⟨1000, true, 448⟩,
    realpath := fun _ => none, mktemp := fun s => s }

/-- An environment with nothing set and uid 1000, for instantiations. -/
def env0 : Envr :=
  ⟨none, none, none, none, none, none, none, 1000⟩

theorem string_mk_toList (s : String) : String.mk s.toList = s := by
  cases s
  rfl

theorem utf8Step_testBit_mono (tmux lcAll lcCtype lang : Option String)
    (flags i : Nat) (h : flags.testBit i = true) :
    (utf8Step tmux lcAll lcCtype lang flags).testBit i = true := by
  unfold utf8Step
  split
  · simp [Nat.testBit_lor, h]
  · split
    · simp [Nat.testBit_lor, h]
    · exact h

/-- C5: `checkshell` rejects a NULL or empty candidate, a candidate not
beginning with `/`, a candidate whose last path component equals the
program's invocation name with a leading `-` stripped, and a candidate
failing the `access(…, X_OK)` check; it accepts every absolute, executable,
non-self candidate. -/
theorem checkshell_spec (pn : String) (xok : String → Bool) :
    checkshell pn xok none = false
    ∧ checkshell pn xok (some "") = false
    ∧ (∀ s : String, s.toList.head? ≠ some '/' → checkshell pn xok (some s) = false)
    ∧ (∀ s : String, afterLastSlash s = stripDash pn → checkshell pn xok (some s) = false)
    ∧ (∀ s : String, xok s = false → checkshell pn xok (some s) = false)
    ∧ (∀ s : String, s.toList.head? = some '/' → areshell pn s = false → xok s = true →
        checkshell pn xok (some s) = true) := by
  have h3 : ∀ s : String, s.toList.head? ≠ some '/' → checkshell pn xok (some s) = false := by
    intro s h
    have h' : s.data.head? ≠ some '/' := h
    simp [checkshell, h']
  refine ⟨rfl, h3 "" (by decide), h3, ?_, ?_, ?_⟩
  · intro s h
    by_cases hh : s.toList.head? = some '/'
    · have hh' : s.data.head? = some '/' := hh
      simp [checkshell, hh', areshell, h]
    · exact h3 s hh
  · intro s h
    by_cases hh : s.toList.head? = some '/'
    · have hh' : s.data.head? = some '/' := hh
      by_cases ha : areshell pn s <;> simp [checkshell, hh', ha, h]
    · exact h3 s hh
  · intro s h1 h2 hx
    have h1' : s.data.head? = some '/' := h1
    simp [checkshell, h1', h2, hx]

theorem checkshell_spec_witness :
    checkshell "tmate" (fun _ => true) (some "bash") = false
    ∧ checkshell "tmate" (fun _ => true) (some "/usr/bin/tmate") = false
    ∧ checkshell "tmate" (fun _ => false) (some "/bin/bash") = false
    ∧ checkshell "tmate" (fun _ => true) (some "/bin/bash") = true :=
  ⟨(checkshell_spec "tmate" (fun _ => true)).2.2.1 "bash" (by decide),
   (checkshell_spec "tmate" (fun _ => true)).2.2.2.1 "/usr/bin/tmate" (by decide),
   (checkshell_spec "tmate" (fun _ => false)).2.2.2.2.1 "/bin/bash" rfl,
   (checkshell_spec "tmate" (fun _ => true)).2.2.2.2.2 "/bin/bash" (by decide) (by decide) rfl⟩

/-- C6: `getshell` prefers `$SHELL` when it passes `checkshell`, then the
account-database login shell when it passes `checkshell`, then the
compiled-in `_PATH_BSHELL` fallback. -/
theorem getshell_precedence (pn : String) (xok : String → Bool)
    (envShell : Option String) (pw : Option Passwd) :
    (∀ sh, envShell = some sh → checkshell pn xok envShell = true →
        getshell pn xok envShell pw = sh)
    ∧ (checkshell pn xok envShell = false → ∀ p, pw = some p →
        checkshell pn xok (some p.pw_shell) = true →
        getshell pn xok envShell pw = p.pw_shell)
    ∧ (checkshell pn xok envShell = false →
        (∀ p, pw = some p → checkshell pn xok (some p.pw_shell) = false) →
        getshell pn xok envShell pw = PATH_BSHELL) := by
  refine ⟨?_, ?_, ?_⟩
  · intro sh he hc
    subst he
    simp [getshell, hc]
  · intro hc p hp hps
    subst hp
    simp [getshell, hc, hps]
  · intro hc hall
    cases pw with
    | none => simp [getshell, hc]
    | some p => simp [getshell, hc, hall p rfl]

theorem getshell_precedence_witness :
    getshell "tmate" (fun _ => true) (some "/bin/bash") none = "/bin/bash"
    ∧ getshell "tmate" (fun _ => true) none (some ⟨"/bin/zsh"⟩) = "/bin/zsh"
    ∧ getshell "tmate" (fun _ => false) (some "/bin/bash") none = PATH_BSHELL :=
  ⟨(getshell_precedence "tmate" (fun _ => true) (some "/bin/bash") none).1
      "/bin/bash" rfl (by decide),
   (getshell_precedence "tmate" (fun _ => true) none (some ⟨"/bin/zsh"⟩)).2.1
      (by decide) ⟨"/bin/zsh"⟩ rfl (by decide),
   (getshell_precedence "tmate" (fun _ => false) (some "/bin/bash") none).2.2
      (by decide) (fun p hp => Option.noConfusion hp)⟩

/-- C1: socket-path precedence: an explicit `-S` path is used verbatim; else,
with no label, a set, non-empty `$TMUX` not starting with a comma yields its
prefix before the first comma (the whole value when comma-free); in every
other case the path comes from `make_label`. -/
theorem resolveSocketPath_precedence (fs : FS) (uid : Nat)
    (tmuxTmpdir tmux pathOpt labelOpt : Option String) :
    (∀ p, pathOpt = some p →
        resolveSocketPath fs uid tmuxTmpdir tmux pathOpt labelOpt = some p)
    ∧ (∀ v, tmux = some v → v ≠ "" → v.toList.head? ≠ some ',' →
        resolveSocketPath fs uid tmuxTmpdir tmux none none
          = some (String.mk (v.toList.takeWhile (fun c => c ≠ ','))))
    ∧ (∀ v, tmux = some v → v ≠ "" → ¬ ',' ∈ v.toList →
        resolveSocketPath fs uid tmuxTmpdir tmux none none = some v)
    ∧ (pathOpt = none → (labelOpt ≠ none ∨ tmuxEnvPath tmux = none) →
        resolveSocketPath fs uid tmuxTmpdir tmux pathOpt labelOpt
          = make_label fs uid tmuxTmpdir labelOpt) := by
  have h2 : ∀ v, tmux = some v → v ≠ "" → v.toList.head? ≠ some ',' →
      resolveSocketPath fs uid tmuxTmpdir tmux none none
        = some (String.mk (v.toList.takeWhile (fun c => c ≠ ','))) := by
    intro v hv hne hcomma
    subst hv
    have hcomma' : v.data.head? ≠ some ',' := hcomma
    simp [resolveSocketPath, tmuxEnvPath, hne, hcomma']
  refine ⟨?_, h2, ?_, ?_⟩
  · intro p hp
    subst hp
    cases labelOpt <;> simp [resolveSocketPath]
  · intro v hv hne hmem
    have hhead : v.toList.head? ≠ some ',' := by
      intro hh
      exact hmem (List.mem_of_mem_head? (by simp only [Option.mem_def]; exact hh))
    have htake : v.toList.takeWhile (fun c => c ≠ ',') = v.toList := by
      refine List.takeWhile_eq_self_iff.mpr ?_
      intro x hx
      simp only [ne_eq, decide_eq_true_eq]
      intro hx'
      exact hmem (hx' ▸ hx)
    rw [h2 v hv hne hhead, htake, string_mk_toList]
  · intro hp hcase
    subst hp
    cases labelOpt with
    | some l => simp [resolveSocketPath]
    | none =>
      rcases hcase with hl | ht
      · exact absurd rfl hl
      · simp [resolveSocketPath, ht]

theorem resolveSocketPath_precedence_witness :
    resolveSocketPath fsOkDir 1000 none (some "a,b") (some "/explicit") none = some "/explicit"
    ∧ resolveSocketPath fsOkDir 1000 none (some "a,b") none none = some "a"
    ∧ resolveSocketPath fsOkDir 1000 none (some "abc") none none = some "abc"
    ∧ resolveSocketPath fsOkDir 1000 none (some ",x") none none
        = make_label fsOkDir 1000 none none :=
  ⟨(resolveSocketPath_precedence fsOkDir 1000 none (some "a,b") (some "/explicit") none).1
      "/explicit" rfl,
   ((resolveSocketPath_precedence fsOkDir 1000 none (some "a,b") none none).2.1
      "a,b" rfl (by decide) (by decide)).trans (by decide),
   (resolveSocketPath_precedence fsOkDir 1000 none (some "abc") none none).2.2.1
      "abc" rfl (by decide) (by decide),
   (resolveSocketPath_precedence fsOkDir 1000 none (some ",x") none none).2.2.2
      rfl (Or.inr (by decide))⟩

/-- A filesystem oracle with a pre-existing runtime directory owned by uid
1000 with mode `0770`: all group bits set, no others bits. -/
def fsGroupOpen : FS :=
  { mkdir := fun _ => .eexist, lstat := fun _ => some ⟨1000, true, 504⟩,
    realpath := fun _ => none, mktemp := fun s => s }

/-- A filesystem oracle with a pre-existing runtime directory owned by uid 0
(not the calling user) with mode `0700`. -/
def fsForeign : FS :=
  { mkdir := fun _ => .eexist, lstat := fun _ => some ⟨0, true, 448⟩,
    realpath := fun _ => none, mktemp := fun s => s }

/-- C2 counterexample: a pre-existing runtime directory owned by the calling
uid 1000 whose mode `0770` grants read, write and execute to the group is
reused silently — `make_label` succeeds, although the claim demands a
permission failure for a group-readable/writable directory. -/
theorem make_label_group_bits_reused :
    fsGroupOpen.lstat (tmateBaseDir none 1000) = some ⟨1000, true, 504⟩
    ∧ (504 : Nat) / 8 % 8 = 7
    ∧ make_label fsGroupOpen 1000 none (some "default")
        = some "/tmp//tmate-1000/default" :=
  ⟨rfl, rfl, by decide⟩

/-- C2 (amended): for a pre-existing runtime directory, `make_label` fails
exactly when the directory is not owned by the current user or has any
*others* permission bits (`S_IRWXO`) set — group bits are not examined — and
on such a failure `main` reports the OS error and exits with status 1
(`BootResult.socketFail`). -/
theorem make_label_security (fs : FS) (uid : Nat) (tmpdir label : Option String)
    (sb : Stat)
    (hmk : fs.mkdir (tmateBaseDir tmpdir uid) ≠ .err)
    (hst : fs.lstat (tmateBaseDir tmpdir uid) = some sb)
    (hdir : sb.isDir = true) :
    (make_label fs uid tmpdir label = none ↔ (sb.st_uid ≠ uid ∨ sb.mode % 8 ≠ 0))
    ∧ ((sb.st_uid ≠ uid ∨ sb.mode % 8 ≠ 0) →
        mainModel fs ⟨none, tmpdir, none, none, none, none, none, uid⟩ "tmate"
          (labelOpts label) 0 = .socketFail
        ∧ exitCode (mainModel fs ⟨none, tmpdir, none, none, none, none, none, uid⟩
            "tmate" (labelOpts label) 0) = some 1) := by
  have hml : make_label fs uid tmpdir label = none ↔ (sb.st_uid ≠ uid ∨ sb.mode % 8 ≠ 0) := by
    unfold make_label
    cases hm : fs.mkdir (tmateBaseDir tmpdir uid) with
    | err => exact absurd hm hmk
    | ok =>
      by_cases hv : sb.st_uid ≠ uid ∨ sb.mode % 8 ≠ 0 <;> simp [hst, hdir, hv]
    | eexist =>
      by_cases hv : sb.st_uid ≠ uid ∨ sb.mode % 8 ≠ 0 <;> simp [hst, hdir, hv]
  refine ⟨hml, ?_⟩
  intro hv
  have hnone := hml.mpr hv
  have hmain : mainModel fs ⟨none, tmpdir, none, none, none, none, none, uid⟩ "tmate"
      (labelOpts label) 0 = .socketFail := by
    cases label with
    | none =>
      simp [mainModel, labelOpts, parseOpts, initState, resolveSocketPath,
        tmuxEnvPath, hnone]
    | some l =>
      simp [mainModel, labelOpts, parseOpts, applyOpt, initState,
        resolveSocketPath, tmuxEnvPath, hnone]
  exact ⟨hmain, by rw [hmain]; rfl⟩

theorem make_label_security_witness :
    make_label fsForeign 1000 none (some "default") = none
    ∧ mainModel fsForeign ⟨none, none, none, none, none, none, none, 1000⟩ "tmate"
        (labelOpts (some "default")) 0 = .socketFail := by
  have h := make_label_security fsForeign 1000 none (some "default")
    ⟨0, true, 448⟩ (by decide) rfl rfl
  exact ⟨h.1.mpr (by decide), (h.2 (by decide)).1⟩

/-- C3 counterexample: with no `-S`, no `-L` and no usable `$TMUX`, the tmate
build does not use the label `"default"`: `make_label` switches to the
template `"XXXXXX"` and passes the result through `mktemp` (here the identity
oracle), so the derived socket path is `{dir}/XXXXXX`-based, not
`{dir}/default`. -/
theorem default_label_randomized :
    resolveSocketPath fsOkDir 1000 none none none none
        = some "/tmp//tmate-1000/XXXXXX"
    ∧ resolveSocketPath fsOkDir 1000 none none none none
        ≠ some "/tmp//tmate-1000/default" := by
  constructor <;> decide

/-- C3 (amended): when no `-S` path and no usable `$TMUX` value apply and the
runtime directory check passes, the socket path for an explicit `-L` label
`l` is `{realpath(dir) or dir}/{l}` — deterministic, so two invocations with
the same label and filesystem state agree — where `dir` is
`{TMUX_TMPDIR or _PATH_TMP}/tmate-{uid}`; canonicalization failure falls back
to the uncanonicalized directory.  When no `-L` label was supplied, the tmate
build instead uses the template label `"XXXXXX"` and applies `mktemp` to the
joined path, so the result is randomized rather than `{dir}/default`. -/
theorem make_label_path_shape (fs : FS) (uid : Nat) (tmpdir : Option String)
    (l : String) (sb : Stat)
    (hmk : fs.mkdir (tmateBaseDir tmpdir uid) ≠ .err)
    (hst : fs.lstat (tmateBaseDir tmpdir uid) = some sb)
    (hdir : sb.isDir = true) (huid : sb.st_uid = uid) (hmode : sb.mode % 8 = 0) :
    make_label fs uid tmpdir (some l)
      = some ((fs.realpath (tmateBaseDir tmpdir uid)).getD (tmateBaseDir tmpdir uid)
          ++ "/" ++ l)
    ∧ make_label fs uid tmpdir none
      = some (fs.mktemp
          ((fs.realpath (tmateBaseDir tmpdir uid)).getD (tmateBaseDir tmpdir uid)
            ++ "/" ++ "XXXXXX"))
    ∧ (fs.realpath (tmateBaseDir tmpdir uid) = none →
        make_label fs uid tmpdir (some l) = some (tmateBaseDir tmpdir uid ++ "/" ++ l))
    ∧ (∀ t, t ≠ "" → tmateBaseDir (some t) uid = t ++ "/tmate-" ++ toString uid)
    ∧ tmateBaseDir none uid = PATH_TMP ++ "/tmate-" ++ toString uid := by
  have hsome : ∀ lab : Option String,
      make_label fs uid tmpdir lab
        = some (if lab.isNone then
            fs.mktemp ((fs.realpath (tmateBaseDir tmpdir uid)).getD
              (tmateBaseDir tmpdir uid) ++ "/" ++ "XXXXXX")
          else (fs.realpath (tmateBaseDir tmpdir uid)).getD (tmateBaseDir tmpdir uid)
              ++ "/" ++ lab.getD "default") := by
    intro lab
    unfold make_label
    cases hm : fs.mkdir (tmateBaseDir tmpdir uid) with
    | err => exact absurd hm hmk
    | ok => cases lab <;> simp [hst, hdir, huid, hmode]
    | eexist => cases lab <;> simp [hst, hdir, huid, hmode]
  refine ⟨by simpa using hsome (some l), by simpa using hsome none, ?_, ?_, rfl⟩
  · intro hrp
    simpa [hrp] using hsome (some l)
  · intro t ht
    simp [tmateBaseDir, ht]

theorem make_label_path_shape_witness :
    make_label fsOkDir 1000 none (some "mylabel") = some "/tmp//tmate-1000/mylabel"
    ∧ make_label fsOkDir 1000 none none = some "/tmp//tmate-1000/XXXXXX" := by
  have h := make_label_path_shape fsOkDir 1000 none "mylabel"
    ⟨1000, true, 448⟩ (by decide) rfl rfl rfl rfl
  exact ⟨h.1.trans (by decide), h.2.1.trans (by decide)⟩

/-- C4: `tmate_load_cli_options` issues exactly one `set-option` command per
captured deferred value, in the fixed order api-key, session-name,
session-name-ro, authorized-keys, clears every slot on hand-off, and a second
invocation issues no commands. -/
theorem tmate_load_cli_options_spec (st : CliOptState) :
    (tmate_load_cli_options st).1
      = ([("tmate-api-key", st.api_key), ("tmate-session-name", st.session_name),
          ("tmate-session-name-ro", st.session_name_ro),
          ("tmate-authorized-keys", st.authorized_keys)].filterMap
          (fun p => p.2.map (fun v => ["set-option", p.1, v])))
    ∧ (tmate_load_cli_options st).2 = ⟨none, none, none, none⟩
    ∧ (tmate_load_cli_options ((tmate_load_cli_options st).2)).1 = [] := by
  obtain ⟨a, b, c, d⟩ := st
  cases a <;> cases b <;> cases c <;> cases d <;> exact ⟨rfl, rfl, rfl⟩

/-- C7: the UTF-8 capability step or-es `CLIENT_UTF8` in unconditionally when
`$TMUX` is set; otherwise the resulting UTF-8 bit is set exactly when the
first non-empty of `LC_ALL`, `LC_CTYPE`, `LANG` contains `UTF-8`/`UTF8`
case-insensitively or the bit was already set by `-u`; the step never clears
any bit and touches no bit other than the UTF-8 one. -/
theorem utf8Step_spec (tmux lcAll lcCtype lang : Option String) (flags : Nat) :
    (tmux.isSome = true →
        (utf8Step tmux lcAll lcCtype lang flags).testBit utf8Bit = true)
    ∧ (tmux = none →
        (utf8Step tmux lcAll lcCtype lang flags).testBit utf8Bit
          = (hasUtf8 (localeValue lcAll lcCtype lang) || flags.testBit utf8Bit))
    ∧ (∀ i, flags.testBit i = true →
        (utf8Step tmux lcAll lcCtype lang flags).testBit i = true)
    ∧ (∀ i, i ≠ utf8Bit →
        (utf8Step tmux lcAll lcCtype lang flags).testBit i = flags.testBit i) := by
  have hself : CLIENT_UTF8.testBit utf8Bit = true := by decide
  refine ⟨?_, ?_, fun i => utf8Step_testBit_mono tmux lcAll lcCtype lang flags i, ?_⟩
  · intro h
    simp [utf8Step, h, Nat.testBit_lor, hself]
  · intro h
    subst h
    by_cases hu : hasUtf8 (localeValue lcAll lcCtype lang)
      <;> simp [utf8Step, hu, Nat.testBit_lor, hself, Bool.or_comm]
  · intro i hi
    have hzero : CLIENT_UTF8.testBit i = false :=
      Nat.testBit_two_pow_of_ne (fun h => hi h.symm)
    unfold utf8Step
    split
    · simp [Nat.testBit_lor, hzero]
    · split
      · simp [Nat.testBit_lor, hzero]
      · rfl

theorem utf8Step_spec_witness :
    (utf8Step (some "") none none none 0).testBit utf8Bit = true
    ∧ (utf8Step none none none (some "en_US.UTF-8") 0).testBit utf8Bit
        = (hasUtf8 (localeValue none none (some "en_US.UTF-8")) || (0 : Nat).testBit utf8Bit)
    ∧ (utf8Step none (some "C") none none 32).testBit 5 = true
    ∧ (utf8Step none (some "C") none none 32).testBit 0 = (32 : Nat).testBit 0 :=
  ⟨(utf8Step_spec (some "") none none none 0).1 rfl,
   (utf8Step_spec none none none (some "en_US.UTF-8") 0).2.1 rfl,
   (utf8Step_spec none (some "C") none none 32).2.2.1 5 (by decide),
   (utf8Step_spec none (some "C") none none 32).2.2.2 0 (by decide)⟩

/-- C8: if `VISUAL` is set its value is inspected (even when `EDITOR` is also
set), else `EDITOR`'s when set; a basename containing `"vi"` sets both
`status-keys` and `mode-keys` to the vi keymap, otherwise both to the emacs
keymap; with neither variable set both options keep their schema defaults. -/
theorem keysOverride_spec (visual editor : Option String) (sk mk : Keys) :
    (∀ s, visual = some s →
        applyKeysOverride visual editor sk mk
          = (if hasSubL "vi".toList (afterLastSlash s).toList then (Keys.vi, Keys.vi)
             else (Keys.emacs, Keys.emacs)))
    ∧ (visual = none → ∀ s, editor = some s →
        applyKeysOverride visual editor sk mk
          = (if hasSubL "vi".toList (afterLastSlash s).toList then (Keys.vi, Keys.vi)
             else (Keys.emacs, Keys.emacs)))
    ∧ (visual = none → editor = none →
        applyKeysOverride visual editor sk mk = (sk, mk)) := by
  have key : ∀ s : String,
      (match (if hasSubL "vi".toList (afterLastSlash s).toList then some Keys.vi
              else some Keys.emacs) with
       | none => (sk, mk)
       | some k => (k, k))
        = (if hasSubL "vi".toList (afterLastSlash s).toList then (Keys.vi, Keys.vi)
           else (Keys.emacs, Keys.emacs)) := by
    intro s
    cases hasSubL "vi".toList (afterLastSlash s).toList <;> rfl
  refine ⟨?_, ?_, ?_⟩
  · intro s hv
    subst hv
    exact key s
  · intro hv s he
    subst hv
    subst he
    exact key s
  · intro hv he
    subst hv
    subst he
    rfl

theorem keysOverride_spec_witness :
    applyKeysOverride (some "/usr/bin/vim") none Keys.emacs Keys.emacs = (Keys.vi, Keys.vi)
    ∧ applyKeysOverride none (some "/usr/bin/nano") Keys.emacs Keys.vi
        = (Keys.emacs, Keys.emacs)
    ∧ applyKeysOverride none none Keys.emacs Keys.vi = (Keys.emacs, Keys.vi) := by
  refine ⟨?_, ?_, ?_⟩
  · exact ((keysOverride_spec (some "/usr/bin/vim") none Keys.emacs Keys.emacs).1
      "/usr/bin/vim" rfl).trans (by decide)
  · exact ((keysOverride_spec none (some "/usr/bin/nano") Keys.emacs Keys.vi).2.1
      rfl "/usr/bin/nano" rfl).trans (by decide)
  · exact (keysOverride_spec none none Keys.emacs Keys.vi).2.2 rfl rfl

/-- C9: when flag parsing captured a `-c` shell command and positional
arguments remain, `main` raises the usage error — usage text to standard
error and exit status 1 — without resolving a socket path. -/
theorem shellcmd_positional_usage (fs : FS) (env : Envr) (argv0 : String)
    (opts : List CliOpt) (argc : Nat) (st : ParseState)
    (hp : parseOpts opts (initState argv0) = .ok st)
    (hc : st.shellcmd.isSome = true) (ha : argc ≠ 0) :
    mainModel fs env argv0 opts argc = .usage
    ∧ exitCode (mainModel fs env argv0 opts argc) = some 1 := by
  have h : mainModel fs env argv0 opts argc = .usage := by
    simp [mainModel, hp, hc, ha]
  exact ⟨h, by rw [h]; rfl⟩

theorem shellcmd_positional_usage_witness :
    mainModel fsOkDir env0 "tmate" [CliOpt.oc "echo hi"] 1 = .usage
    ∧ exitCode (mainModel fsOkDir env0 "tmate" [CliOpt.oc "echo hi"] 1) = some 1 :=
  shellcmd_positional_usage fsOkDir env0 "tmate" [CliOpt.oc "echo hi"] 1
    { initState "tmate" with shellcmd := some "echo hi" } rfl rfl (by decide)

theorem applyOpt_flags_mono {st st₂ : ParseState} {o : CliOpt} (i : Nat)
    (h : applyOpt st o = .ok st₂) (hb : st.flags.testBit i = true) :
    st₂.flags.testBit i = true := by
  cases o <;> simp [applyOpt] at h
  case oC =>
    split at h <;> simp only [Except.ok.injEq] at h
      <;> subst h <;> simp [Nat.testBit_lor, hb]
  all_goals (subst h; simp [Nat.testBit_lor, hb])

theorem parseOpts_flags_mono (i : Nat) :
    ∀ (opts : List CliOpt) (st st₂ : ParseState),
      parseOpts opts st = .ok st₂ → st.flags.testBit i = true →
      st₂.flags.testBit i = true := by
  intro opts
  induction opts with
  | nil =>
    intro st st₂ h hb
    simp [parseOpts] at h
    subst h
    exact hb
  | cons o rest ih =>
    intro st st₂ h hb
    unfold parseOpts at h
    cases ha : applyOpt st o with
    | error e => rw [ha] at h; exact absurd h (by simp)
    | ok stm =>
      rw [ha] at h
      exact ih stm st₂ h (applyOpt_flags_mono i ha hb)

/-- C10: in the tmate build the flag set starts with `CLIENT_256COLOURS` and
`CLIENT_UTF8` already set, no `getopt` case or UTF-8 step ever clears a flag,
so whenever `main` reaches the `client_main` hand-off both capability bits
are present in the delivered flag set, whatever the options and environment.
-/
theorem client_flags_contain_tmate_bits (fs : FS) (env : Envr) (argv0 : String)
    (opts : List CliOpt) (argc argc₂ : Nat) (p : String) (fl : Nat)
    (sc : Option String)
    (h : mainModel fs env argv0 opts argc = .client p fl argc₂ sc) :
    fl.testBit coloursBit = true ∧ fl.testBit utf8Bit = true := by
  have hinit : ∀ j, (CLIENT_256COLOURS ||| CLIENT_UTF8).testBit j = true →
      (initState argv0).flags.testBit j = true := by
    intro j hj
    simp only [Nat.testBit_lor] at hj
    simp [initState, Nat.testBit_lor, hj]
  cases hp : parseOpts opts (initState argv0) with
  | error e =>
    cases e with
    | usageExit =>
      have hm : mainModel fs env argv0 opts argc = .usage := by
        unfold mainModel
        rw [hp]
      rw [hm] at h
      exact absurd h (by simp)
    | versionExit =>
      have hm : mainModel fs env argv0 opts argc = .versionExit := by
        unfold mainModel
        rw [hp]
      rw [hm] at h
      exact absurd h (by simp)
  | ok st =>
    have hm : mainModel fs env argv0 opts argc
        = (if st.shellcmd.isSome ∧ argc ≠ 0 then BootResult.usage
           else
             match resolveSocketPath fs env.uid env.tmuxTmpdir
                 (if st.tmuxUnset then none else env.tmux) st.path st.label with
             | none => BootResult.socketFail
             | some q =>
               BootResult.client q
                 (utf8Step (if st.tmuxUnset then none else env.tmux)
                   env.lcAll env.lcCtype env.lang st.flags)
                 argc st.shellcmd) := by
      unfold mainModel
      rw [hp]
    rw [hm] at h
    by_cases hu : st.shellcmd.isSome = true ∧ argc ≠ 0
    · rw [if_pos hu] at h
      exact absurd h (by simp)
    · rw [if_neg hu] at h
      cases hr : resolveSocketPath fs env.uid env.tmuxTmpdir
          (if st.tmuxUnset then none else env.tmux) st.path st.label with
      | none =>
        rw [hr] at h
        exact absurd h (by simp)
      | some q =>
        have h₂ : BootResult.client q
            (utf8Step (if st.tmuxUnset then none else env.tmux)
              env.lcAll env.lcCtype env.lang st.flags) argc st.shellcmd
            = BootResult.client p fl argc₂ sc := by
          rw [hr] at h
          exact h
        injection h₂ with h1 hfl h3 h4
        subst hfl
        constructor
        · exact utf8Step_testBit_mono _ _ _ _ _ _
            (parseOpts_flags_mono coloursBit opts _ st hp (hinit _ (by decide)))
        · exact utf8Step_testBit_mono _ _ _ _ _ _
            (parseOpts_flags_mono utf8Bit opts _ st hp (hinit _ (by decide)))

theorem client_flags_contain_tmate_bits_witness :
    (6 : Nat).testBit coloursBit = true ∧ (6 : Nat).testBit utf8Bit = true :=
  client_flags_contain_tmate_bits fsOkDir env0 "tmate" [] 0 0
    "/tmp//tmate-1000/XXXXXX" 6 none (by decide)

end TmateBoot
